import Mathlib

/-!
Verification of the HurayraXpress parcel-delivery backend (Express + MongoDB).

The embedding models the route handlers of `src/index.js` / `src/unnamed/part_000`
over an explicit store state.  External collaborators (the document store's
per-operation semantics, the identity verifier, the payment gateway, the
JavaScript `Date` builtin) are modelled by executable Lean functions or by
function parameters, faithful to their documented behaviour.
-/

namespace HurayraXpress

/-! ## ObjectId

`new ObjectId(s)` for a string accepts exactly 24 hexadecimal characters and
throws otherwise; two ObjectIds are equal iff their byte contents are equal,
which for 24-hex strings is equality of the denoted 96-bit value.  We model an
ObjectId by that value. -/

/-- Hexadecimal digit test, as used by the ObjectId constructor's validation. -/
def isHexDigit (c : Char) : Bool :=
  (('0' ≤ c && c ≤ '9') || ('a' ≤ c && c ≤ 'f') || ('A' ≤ c && c ≤ 'F'))

/-- Value of a hexadecimal digit. -/
def hexVal (c : Char) : Nat :=
  if '0' ≤ c && c ≤ '9' then c.toNat - '0'.toNat
  else if 'a' ≤ c && c ≤ 'f' then c.toNat - 'a'.toNat + 10
  else c.toNat - 'A'.toNat + 10

/-- `new ObjectId(s)` for a string argument: succeeds exactly on 24-character
hexadecimal strings, yielding the denoted value; `none` models the thrown
`BSONError`. -/
def parseObjectId (s : String) : Option Nat :=
  let cs := s.toList
  if cs.length = 24 && cs.all isHexDigit then
    some (cs.foldl (fun a c => 16 * a + hexVal c) 0)
  else
    none

/-! ## The JavaScript clock

`new Date().toISOString()` renders a millisecond timestamp as
`YYYY-MM-DDTHH:mm:ss.sssZ` (ECMAScript `Date.prototype.toISOString`, for
nonnegative timestamps in the four-digit-year range).  The handler evaluates
`new Date()` twice in succession, so the two reads are modelled as two
separate time parameters. -/

/-- Left-pad the decimal rendering of `n` with zeros to `width` characters. -/
def padZeros (width n : Nat) : String :=
  let s := toString n
  String.mk (List.replicate (width - s.length) '0') ++ s

/-- Civil date (year, month, day) of a day count since 1970-01-01
(proleptic Gregorian calendar, nonnegative days). -/
def civilFromDays (days : Nat) : Nat × Nat × Nat :=
  let z := days + 719468
  let era := z / 146097
  let doe := z % 146097
  let yoe := (doe - doe / 1460 + doe / 36524 - doe / 146096) / 365
  let y := yoe + era * 400
  let doy := doe - (365 * yoe + yoe / 4 - yoe / 100)
  let mp := (5 * doy + 2) / 153
  let d := doy - (153 * mp + 2) / 5 + 1
  let m := if mp < 10 then mp + 3 else mp - 9
  (if m ≤ 2 then y + 1 else y, m, d)

/-- ECMAScript `Date.prototype.toISOString` on a nonnegative millisecond
timestamp. -/
def toISOString (ms : Nat) : String :=
  let msPart := ms % 1000
  let totalSec := ms / 1000
  let s := totalSec % 60
  let mi := totalSec / 60 % 60
  let h := totalSec / 3600 % 24
  match civilFromDays (totalSec / 86400) with
  | (y, mo, d) =>
    padZeros 4 y ++ "-" ++ padZeros 2 mo ++ "-" ++ padZeros 2 d ++ "T" ++
    padZeros 2 h ++ ":" ++ padZeros 2 mi ++ ":" ++ padZeros 2 s ++ "." ++
    padZeros 3 msPart ++ "Z"

/-! ## Data model -/

/-- A parcel document in the `parcels` collection: the server-assigned
identifier plus the client-supplied fields the handlers read
(`created_by`, `createdAt`, `payment_status`), with the remaining
client-supplied fields kept as an opaque association list. -/
structure ParcelDoc where
  _id : Nat
  created_by : String
  createdAt : Int
  payment_status : Option String
  extra : List (String × String)
deriving Repr, DecidableEq

/-- A client-supplied parcel creation payload: a `ParcelDoc` without the
server-assigned identifier. -/
structure ParcelPayload where
  created_by : String
  createdAt : Int
  payment_status : Option String
  extra : List (String × String)
deriving Repr, DecidableEq

/-- The document built by `insertOne` from a payload: the payload plus the
generated `_id`. -/
def mkParcel (oid : Nat) (p : ParcelPayload) : ParcelDoc :=
  { _id := oid, created_by := p.created_by, createdAt := p.createdAt,
    payment_status := p.payment_status, extra := p.extra }

/-- The body of a `POST /payments` request, destructured by the handler as
`const { parcelId, email, amount, paymentMethod, transactionId } = req.body`. -/
structure PaymentInput where
  parcelId : String
  email : String
  amount : Int
  paymentMethod : String
  transactionId : String
deriving Repr, DecidableEq

/-- A payment document in the `payments` collection, as constructed by the
`POST /payments` handler (`parcelId` is stored as the raw request string). -/
structure PaymentDoc where
  _id : Nat
  parcelId : String
  email : String
  amount : Int
  paymentMethod : String
  transactionId : String
  paid_at_string : String
  paid_at : Nat
deriving Repr, DecidableEq

/-- The store state: the two collections the payment workflow touches, plus
the generator for fresh ObjectIds. -/
structure DB where
  parcels : List ParcelDoc
  payments : List PaymentDoc
  nextOid : Nat
deriving Repr, DecidableEq

/-! ## Store primitives -/

/-- `parcelsCollection.updateOne({ _id: oid }, { $set: { payment_status: 'paid' } })`:
update the first document whose `_id` matches; `$set` to an already-equal value
counts as matched but not modified.  Returns `modifiedCount` and the updated
collection. -/
def updateOneSetPaid (oid : Nat) : List ParcelDoc → Nat × List ParcelDoc
  | [] => (0, [])
  | p :: ps =>
    if p._id = oid then
      if p.payment_status = some "paid" then (0, p :: ps)
      else (1, { p with payment_status := some "paid" } :: ps)
    else
      ((updateOneSetPaid oid ps).1, p :: (updateOneSetPaid oid ps).2)

/-- `parcelsCollection.deleteOne({ _id: oid })`: remove the first document whose
`_id` matches; returns `deletedCount` and the updated collection. -/
def deleteOneById (oid : Nat) : List ParcelDoc → Nat × List ParcelDoc
  | [] => (0, [])
  | p :: ps =>
    if p._id = oid then (1, ps)
    else ((deleteOneById oid ps).1, p :: (deleteOneById oid ps).2)

/-! ## Auth gate (`verifyFBToken`) -/

/-- `authHeader.split(' ')`: JavaScript single-character string split, keeping
empty segments. -/
def jsSplitSpaceAux : List Char → List Char → List String
  | [], acc => [String.mk acc.reverse]
  | c :: cs, acc =>
    if c = ' ' then String.mk acc.reverse :: jsSplitSpaceAux cs []
    else jsSplitSpaceAux cs (c :: acc)

/-- `h.split(' ')` of the `Authorization` header value. -/
def jsSplitSpace (h : String) : List String :=
  jsSplitSpaceAux h.toList []

/-- `authHeader.split(' ')[1]`: the element after the scheme, when present. -/
def extractToken (h : String) : Option String :=
  (jsSplitSpace h).get? 1

/-- Outcome of the `verifyFBToken` middleware: respond 401, respond 403, or
attach the decoded claims to the request and call `next()`. -/
inductive AuthOutcome (α : Type) where
  | unauthorized
  | forbidden
  | proceed (decoded : α)
deriving Repr, DecidableEq

/-- The `verifyFBToken` middleware.  `auth` is the `Authorization` header
(`none` when absent); `verify` is the external identity verifier
(`admin.auth().verifyIdToken`), returning `none` when verification throws.
JavaScript truthiness: both a missing header and an empty-string header or
token fail the `!authHeader` / `!token` checks. -/
def verifyFBToken {α : Type} (auth : Option String) (verify : String → Option α) :
    AuthOutcome α :=
  match auth with
  | none => .unauthorized
  | some h =>
    if h = "" then .unauthorized
    else
      match extractToken h with
      | none => .unauthorized
      | some tok =>
        if tok = "" then .unauthorized
        else
          match verify tok with
          | none => .forbidden
          | some c => .proceed c

/-! ## Parcel routes -/

/-- `POST /parcels`: insert the request body, returning the store's insert
result (its `insertedId`) and the new state; responds 201. -/
def insertParcel (db : DB) (p : ParcelPayload) : Nat × DB :=
  (db.nextOid,
   { db with parcels := db.parcels ++ [mkParcel db.nextOid p],
             nextOid := db.nextOid + 1 })

/-- The `{ created_by: userEmail }` query built by `GET /parcels`, including the
JavaScript truthiness of `userEmail ? ... : {}`: an absent or empty email
yields the unfiltered query. -/
def parcelQuery (userEmail : Option String) : ParcelDoc → Bool :=
  match userEmail with
  | none => fun _ => true
  | some e => if e = "" then fun _ => true else fun p => p.created_by == e

/-- The descending-`createdAt` order requested by `sort: { createdAt: -1 }`. -/
def createdAtDesc (a b : ParcelDoc) : Prop :=
  b.createdAt ≤ a.createdAt

instance : DecidableRel createdAtDesc :=
  fun a b => inferInstanceAs (Decidable (b.createdAt ≤ a.createdAt))

instance : IsTotal ParcelDoc createdAtDesc :=
  ⟨fun a b => le_total b.createdAt a.createdAt⟩

instance : IsTrans ParcelDoc createdAtDesc :=
  ⟨fun _ _ _ hab hbc => le_trans hbc hab⟩

/-- `GET /parcels`: find the documents matching the (possibly empty) email
query, sorted by descending `createdAt`.  The store's sort is modelled by
insertion sort with the requested order. -/
def getParcels (db : DB) (userEmail : Option String) : List ParcelDoc :=
  (db.parcels.filter (parcelQuery userEmail)).insertionSort createdAtDesc

/-- Response of `GET /parcels/:id`.  `fault` models the uncaught throw of the
ObjectId constructor on a malformed id. -/
inductive ParcelGetResponse where
  | found (p : ParcelDoc)
  | notFound (message : String)
  | fault
deriving Repr, DecidableEq

/-- `GET /parcels/:id`: `findOne({ _id: new ObjectId(id) })`, responding 404
when no document matches. -/
def getParcelById (db : DB) (idStr : String) : ParcelGetResponse :=
  match parseObjectId idStr with
  | none => .fault
  | some oid =>
    match db.parcels.find? (fun p => p._id == oid) with
    | none => .notFound "Parcel not found"
    | some p => .found p

/-- Response of `DELETE /parcels/:id`: `res.send(result)` of the store's
deletion result (HTTP 200), or the uncaught ObjectId-constructor throw. -/
inductive DeleteResponse where
  | ok (deletedCount : Nat)
  | fault
deriving Repr, DecidableEq

/-- `DELETE /parcels/:id`: `deleteOne({ _id: new ObjectId(id) })`, sending the
deletion result whether or not anything matched. -/
def deleteParcel (db : DB) (idStr : String) : DeleteResponse × DB :=
  match parseObjectId idStr with
  | none => (.fault, db)
  | some oid =>
    ((.ok (deleteOneById oid db.parcels).1),
     { db with parcels := (deleteOneById oid db.parcels).2 })

/-! ## Payment intent creation -/

/-- The gateway's payment-intent object, of which the handler only reads
`client_secret`. -/
structure PaymentIntent where
  client_secret : String
deriving Repr, DecidableEq

/-- Response of `POST /create-payment-intent`: `res.json({ clientSecret })`
(HTTP 200) or `res.status(500).json({ error: error.message })`. -/
inductive IntentResponse where
  | ok (clientSecret : String)
  | err (error : String)
deriving Repr, DecidableEq

/-- HTTP status of an `IntentResponse`. -/
def intentStatus : IntentResponse → Nat
  | .ok _ => 200
  | .err _ => 500

/-- `POST /create-payment-intent`: forward `amountInCents` to the gateway
(`stripe.paymentIntents.create`, modelled by the `gateway` parameter, with
`Except.error` for a thrown gateway error) and return its client secret.  The
route is registered without `verifyFBToken` and performs no validation of the
amount, which is reflected in the unconditional signature. -/
def createPaymentIntent (amountInCents : Int)
    (gateway : Int → Except String PaymentIntent) : IntentResponse :=
  match gateway amountInCents with
  | .ok pi => .ok pi.client_secret
  | .error msg => .err msg

/-! ## Payment recording (`POST /payments`) -/

/-- Response of `POST /payments`. -/
inductive PaymentsResponse where
  | created (message : String) (insertedId : Nat)
  | notFound (message : String)
  | serverError (message : String)
deriving Repr, DecidableEq

/-- HTTP status of a `PaymentsResponse`. -/
def paymentsStatus : PaymentsResponse → Nat
  | .created _ _ => 201
  | .notFound _ => 404
  | .serverError _ => 500

/-- The payment document built by the handler: the destructured request fields
plus the two timestamp fields, with the store-assigned `_id`.  `tStr` and
`tDate` are the two successive `new Date()` reads. -/
def mkPaymentDoc (oid : Nat) (inp : PaymentInput) (tStr tDate : Nat) : PaymentDoc :=
  { _id := oid, parcelId := inp.parcelId, email := inp.email,
    amount := inp.amount, paymentMethod := inp.paymentMethod,
    transactionId := inp.transactionId,
    paid_at_string := toISOString tStr, paid_at := tDate }

/-- The `POST /payments` handler body.  `tStr` and `tDate` are the millisecond
values of the two successive `new Date()` evaluations in the payment document
literal; `insertFails` states whether the `paymentsCollection.insertOne` call
throws (an external-store fault).  A malformed `parcelId` makes the ObjectId
constructor throw inside the `try`, landing in the generic `catch`. -/
def postPayments (db : DB) (inp : PaymentInput) (tStr tDate : Nat)
    (insertFails : Bool) : PaymentsResponse × DB :=
  match parseObjectId inp.parcelId with
  | none => (.serverError "Failed to record payment", db)
  | some oid =>
    let upd := updateOneSetPaid oid db.parcels
    if upd.1 = 0 then
      (.notFound "Parcel not found or already paid", { db with parcels := upd.2 })
    else
      let db1 : DB := { db with parcels := upd.2 }
      if insertFails then
        (.serverError "Failed to record payment", db1)
      else
        (.created "Payment recorded and parcel marked as paid" db1.nextOid,
         { db1 with
             payments := db1.payments ++ [mkPaymentDoc db1.nextOid inp tStr tDate],
             nextOid := db1.nextOid + 1 })

/-! ## Example values, used to instantiate the theorems below -/

/-- A sample unpaid parcel with identifier 0. -/
def exParcel : ParcelDoc :=
  { _id := 0, created_by := "alice@example.com", createdAt := 5,
    payment_status := some "unpaid", extra := [("weight", "2kg")] }

/-- A store holding one unpaid parcel. -/
def exDb : DB := { parcels := [exParcel], payments := [], nextOid := 1 }

/-- A payment submission referencing `exParcel` (its id, 0, in 24-hex form). -/
def exInput : PaymentInput :=
  { parcelId := "000000000000000000000000", email := "alice@example.com",
    amount := 500, paymentMethod := "card", transactionId := "tx_1001" }

/-- The store after a first successful payment submission for `exParcel`. -/
def exDbAfterFirst : DB := (postPayments exDb exInput 3 3 false).2

/-- A sample parcel creation payload. -/
def exPayload : ParcelPayload :=
  { created_by := "carol@example.com", createdAt := 11,
    payment_status := some "unpaid", extra := [("type", "document")] }

/-- A sample parcel owned by a nonempty email, for the listing route. -/
def exParcelB : ParcelDoc :=
  { _id := 7, created_by := "bob@example.com", createdAt := 9,
    payment_status := none, extra := [] }

/-- A store holding only `exParcelB`. -/
def exDb6 : DB := { parcels := [exParcelB], payments := [], nextOid := 8 }

/-- A sample identity verifier accepting exactly one token. -/
def exVerify : String → Option Nat :=
  fun t => if t = "good-token" then some 99 else none

/-- A sample payment gateway rejecting negative amounts. -/
def exGateway : Int → Except String PaymentIntent :=
  fun a => if a < 0 then .error "Invalid positive integer"
           else .ok { client_secret := "pi_1001_secret_xyz" }

/-! ## Store lemmas -/

/-- The per-document effect of a successful `$set payment_status: 'paid'` on
the matched identifier. -/
def markPaid (oid : Nat) (p : ParcelDoc) : ParcelDoc :=
  if p._id = oid then { p with payment_status := some "paid" } else p

theorem map_markPaid_of_not_mem (oid : Nat) (l : List ParcelDoc)
    (h : ∀ p ∈ l, p._id ≠ oid) : l.map (markPaid oid) = l := by
  induction l with
  | nil => rfl
  | cons p ps ih =>
    simp only [List.map_cons, markPaid, h p (List.mem_cons_self _ _), if_false,
      ih (fun q hq => h q (List.mem_cons_of_mem _ hq))]

theorem updateOneSetPaid_of_all_paid (oid : Nat) (l : List ParcelDoc)
    (h : ∀ p ∈ l, p._id = oid → p.payment_status = some "paid") :
    updateOneSetPaid oid l = (0, l) := by
  induction l with
  | nil => rfl
  | cons p ps ih =>
    by_cases hp : p._id = oid
    · have hpaid := h p (List.mem_cons_self _ _) hp
      simp [updateOneSetPaid, hp, hpaid]
    · have ih2 := ih (fun q hq hq2 => h q (List.mem_cons_of_mem _ hq) hq2)
      simp [updateOneSetPaid, hp, ih2]

theorem updateOneSetPaid_of_unpaid (oid : Nat) (l : List ParcelDoc) (p : ParcelDoc)
    (hnd : (l.map ParcelDoc._id).Nodup)
    (hmem : p ∈ l) (hid : p._id = oid) (hunpaid : p.payment_status ≠ some "paid") :
    updateOneSetPaid oid l = (1, l.map (markPaid oid)) := by
  induction l with
  | nil => cases hmem
  | cons q qs ih =>
    rw [List.map_cons, List.nodup_cons] at hnd
    rcases List.mem_cons.mp hmem with heq | hmem2
    · subst heq
      have hqs : ∀ r ∈ qs, r._id ≠ oid := by
        intro r hr hroid
        have : r._id ∈ qs.map ParcelDoc._id := List.mem_map_of_mem ParcelDoc._id hr
        rw [hroid, ← hid] at this
        exact hnd.1 this
      simp [updateOneSetPaid, hid, hunpaid, List.map_cons, markPaid,
        map_markPaid_of_not_mem oid qs hqs]
    · have hq : q._id ≠ oid := by
        intro hqoid
        exact hnd.1 (by rw [hqoid, ← hid]; exact List.mem_map_of_mem ParcelDoc._id hmem2)
      have ih2 := ih hnd.2 hmem2
      simp [updateOneSetPaid, hq, ih2, List.map_cons, markPaid]

theorem deleteOneById_of_not_mem (oid : Nat) (l : List ParcelDoc)
    (h : ∀ p ∈ l, p._id ≠ oid) : deleteOneById oid l = (0, l) := by
  induction l with
  | nil => rfl
  | cons p ps ih =>
    have ih2 := ih (fun q hq => h q (List.mem_cons_of_mem _ hq))
    simp [deleteOneById, h p (List.mem_cons_self _ _), ih2]

theorem find?_append_singleton (l : List ParcelDoc) (x : ParcelDoc)
    (pred : ParcelDoc → Bool)
    (h : ∀ q ∈ l, pred q = false) (hx : pred x = true) :
    (l ++ [x]).find? pred = some x := by
  induction l with
  | nil => simp [List.find?, hx]
  | cons q qs ih =>
    have h1 := h q (List.mem_cons_self _ _)
    have ih2 := ih (fun r hr => h r (List.mem_cons_of_mem _ hr))
    simp [List.find?, h1, ih2]

/-! ## Claim theorems -/

/-- C1: a payment submission whose `parcelId` denotes an existing parcel whose
`payment_status` is not `"paid"` gets a 201 response carrying the success
message and the inserted identifier; the referenced parcel's `payment_status`
becomes `"paid"`, and exactly one payment record with the submitted
`parcelId`, `email`, `amount`, `paymentMethod`, `transactionId` and the two
timestamp fields is appended to the payments collection. -/
theorem postPayments_success (db : DB) (inp : PaymentInput) (tStr tDate oid : Nat)
    (p : ParcelDoc)
    (hparse : parseObjectId inp.parcelId = some oid)
    (hnd : (db.parcels.map ParcelDoc._id).Nodup)
    (hmem : p ∈ db.parcels) (hid : p._id = oid)
    (hunpaid : p.payment_status ≠ some "paid") :
    postPayments db inp tStr tDate false =
      (.created "Payment recorded and parcel marked as paid" db.nextOid,
       { parcels := db.parcels.map (markPaid oid),
         payments := db.payments ++ [mkPaymentDoc db.nextOid inp tStr tDate],
         nextOid := db.nextOid + 1 }) ∧
    { p with payment_status := some "paid" } ∈
      (postPayments db inp tStr tDate false).2.parcels ∧
    paymentsStatus (postPayments db inp tStr tDate false).1 = 201 := by
  have hupd := updateOneSetPaid_of_unpaid oid db.parcels p hnd hmem hid hunpaid
  have hmain : postPayments db inp tStr tDate false =
      (.created "Payment recorded and parcel marked as paid" db.nextOid,
       { parcels := db.parcels.map (markPaid oid),
         payments := db.payments ++ [mkPaymentDoc db.nextOid inp tStr tDate],
         nextOid := db.nextOid + 1 }) := by
    simp [postPayments, hparse, hupd]
  refine ⟨hmain, ?_, ?_⟩
  · rw [hmain]
    have hmap : markPaid oid p ∈ db.parcels.map (markPaid oid) :=
      List.mem_map_of_mem _ hmem
    simpa [markPaid, hid] using hmap
  · rw [hmain]; rfl

/-- C1 witness: the success case evaluated on a concrete store. -/
theorem postPayments_success_witness :
    postPayments exDb exInput 7 7 false =
      (.created "Payment recorded and parcel marked as paid" exDb.nextOid,
       { parcels := exDb.parcels.map (markPaid 0),
         payments := exDb.payments ++ [mkPaymentDoc exDb.nextOid exInput 7 7],
         nextOid := exDb.nextOid + 1 }) ∧
    { exParcel with payment_status := some "paid" } ∈
      (postPayments exDb exInput 7 7 false).2.parcels ∧
    paymentsStatus (postPayments exDb exInput 7 7 false).1 = 201 :=
  postPayments_success exDb exInput 7 7 0 exParcel (by decide) (by decide)
    (by decide) (by decide) (by decide)

/-- C2: when the status update modifies zero documents — the `parcelId`
denotes no parcel, or a parcel already `"paid"` — the handler responds 404
with `"Parcel not found or already paid"` and leaves the store unchanged, so
no payment record is inserted. -/
theorem postPayments_rejected (db : DB) (inp : PaymentInput) (tStr tDate : Nat)
    (insertFails : Bool) (oid : Nat)
    (hparse : parseObjectId inp.parcelId = some oid)
    (hall : ∀ p ∈ db.parcels, p._id = oid → p.payment_status = some "paid") :
    postPayments db inp tStr tDate insertFails =
      (.notFound "Parcel not found or already paid", db) ∧
    paymentsStatus (postPayments db inp tStr tDate insertFails).1 = 404 := by
  have hupd := updateOneSetPaid_of_all_paid oid db.parcels hall
  have hmain : postPayments db inp tStr tDate insertFails =
      (.notFound "Parcel not found or already paid", db) := by
    simp [postPayments, hparse, hupd]
  exact ⟨hmain, by rw [hmain]; rfl⟩

/-- C2 witness: a second submission with the same `parcelId`, after a first
successful one, is rejected with 404 and the store is unchanged. -/
theorem postPayments_rejected_witness :
    postPayments exDbAfterFirst exInput 9 9 false =
      (.notFound "Parcel not found or already paid", exDbAfterFirst) ∧
    paymentsStatus (postPayments exDbAfterFirst exInput 9 9 false).1 = 404 :=
  postPayments_rejected exDbAfterFirst exInput 9 9 false 0 (by decide) (by decide)

/-- C3: when the payment-record insertion throws after the parcel was already
marked `"paid"`, the handler answers with the generic 500
`"Failed to record payment"` and performs no compensating write: the parcel
stays `"paid"` while the payments collection is unchanged. -/
theorem postPayments_insertFailure (db : DB) (inp : PaymentInput)
    (tStr tDate oid : Nat) (p : ParcelDoc)
    (hparse : parseObjectId inp.parcelId = some oid)
    (hnd : (db.parcels.map ParcelDoc._id).Nodup)
    (hmem : p ∈ db.parcels) (hid : p._id = oid)
    (hunpaid : p.payment_status ≠ some "paid") :
    postPayments db inp tStr tDate true =
      (.serverError "Failed to record payment",
       { db with parcels := db.parcels.map (markPaid oid) }) ∧
    (postPayments db inp tStr tDate true).2.payments = db.payments ∧
    { p with payment_status := some "paid" } ∈
      (postPayments db inp tStr tDate true).2.parcels ∧
    paymentsStatus (postPayments db inp tStr tDate true).1 = 500 := by
  have hupd := updateOneSetPaid_of_unpaid oid db.parcels p hnd hmem hid hunpaid
  have hmain : postPayments db inp tStr tDate true =
      (.serverError "Failed to record payment",
       { db with parcels := db.parcels.map (markPaid oid) }) := by
    simp [postPayments, hparse, hupd]
  refine ⟨hmain, by rw [hmain], ?_, by rw [hmain]; rfl⟩
  rw [hmain]
  have hmap : markPaid oid p ∈ db.parcels.map (markPaid oid) :=
    List.mem_map_of_mem _ hmem
  simpa [markPaid, hid] using hmap

/-- C3 witness: the insertion-failure case evaluated on a concrete store. -/
theorem postPayments_insertFailure_witness :
    postPayments exDb exInput 7 7 true =
      (.serverError "Failed to record payment",
       { exDb with parcels := exDb.parcels.map (markPaid 0) }) ∧
    (postPayments exDb exInput 7 7 true).2.payments = exDb.payments ∧
    { exParcel with payment_status := some "paid" } ∈
      (postPayments exDb exInput 7 7 true).2.parcels ∧
    paymentsStatus (postPayments exDb exInput 7 7 true).1 = 500 :=
  postPayments_insertFailure exDb exInput 7 7 0 exParcel (by decide) (by decide)
    (by decide) (by decide) (by decide)

/-- C10: when `parcelId` is not a syntactically valid ObjectId string, the
ObjectId constructor throws inside the `try`, so the handler responds 500 with
the generic `"Failed to record payment"` — not 404 — and neither collection is
modified. -/
theorem postPayments_malformedId (db : DB) (inp : PaymentInput)
    (tStr tDate : Nat) (insertFails : Bool)
    (hparse : parseObjectId inp.parcelId = none) :
    postPayments db inp tStr tDate insertFails =
      (.serverError "Failed to record payment", db) ∧
    paymentsStatus (postPayments db inp tStr tDate insertFails).1 = 500 := by
  have hmain : postPayments db inp tStr tDate insertFails =
      (.serverError "Failed to record payment", db) := by
    simp [postPayments, hparse]
  exact ⟨hmain, by rw [hmain]; rfl⟩

/-- C10 witness: a malformed `parcelId` evaluated on a concrete store. -/
theorem postPayments_malformedId_witness :
    postPayments exDb { exInput with parcelId := "not-a-valid-hex-objectid" } 7 7 false =
      (.serverError "Failed to record payment", exDb) ∧
    paymentsStatus
      (postPayments exDb { exInput with parcelId := "not-a-valid-hex-objectid" } 7 7 false).1 = 500 :=
  postPayments_malformedId exDb { exInput with parcelId := "not-a-valid-hex-objectid" }
    7 7 false (by decide)

/-- C4: an auth-gated request without an `Authorization` header is answered
401 regardless of the verifier (so the verifier is not consulted); a present
token whose verification throws is answered 403; a token whose verification
succeeds has its decoded claims attached and the downstream handler runs. -/
theorem verifyFBToken_spec {α : Type} (verify : String → Option α)
    (h tok : String) (c : α) :
    (verifyFBToken none verify = .unauthorized) ∧
    (extractToken h = some tok → tok ≠ "" → verify tok = none →
      verifyFBToken (some h) verify = .forbidden) ∧
    (extractToken h = some tok → tok ≠ "" → verify tok = some c →
      verifyFBToken (some h) verify = .proceed c) := by
  refine ⟨rfl, ?_, ?_⟩
  · intro hex htok hv
    by_cases hh : h = ""
    · subst hh
      have hnone : extractToken "" = none := rfl
      rw [hnone] at hex
      exact Option.noConfusion hex
    · simp [verifyFBToken, hh, hex, htok, hv]
  · intro hex htok hv
    by_cases hh : h = ""
    · subst hh
      have hnone : extractToken "" = none := rfl
      rw [hnone] at hex
      exact Option.noConfusion hex
    · simp [verifyFBToken, hh, hex, htok, hv]

/-- C4 witness: the three gate outcomes on concrete headers and a concrete
verifier. -/
theorem verifyFBToken_spec_witness :
    verifyFBToken none exVerify = .unauthorized ∧
    verifyFBToken (some "Bearer bad-token") exVerify = .forbidden ∧
    verifyFBToken (some "Bearer good-token") exVerify = .proceed 99 :=
  ⟨(verifyFBToken_spec exVerify "x" "x" 0).1,
   (verifyFBToken_spec exVerify "Bearer bad-token" "bad-token" 99).2.1
     (by decide) (by decide) (by decide),
   (verifyFBToken_spec exVerify "Bearer good-token" "good-token" 99).2.2
     (by decide) (by decide) (by decide)⟩

/-- C5: inserting a parcel payload and then fetching the parcel under the
identifier returned by the insert yields exactly the payload extended with the
generated identifier. -/
theorem parcel_roundtrip (db : DB) (p : ParcelPayload) (s : String)
    (hfresh : ∀ q ∈ db.parcels, q._id ≠ db.nextOid)
    (hs : parseObjectId s = some (insertParcel db p).1) :
    getParcelById (insertParcel db p).2 s =
      .found (mkParcel (insertParcel db p).1 p) := by
  have h1 : (insertParcel db p).1 = db.nextOid := rfl
  rw [h1] at hs ⊢
  have hfind : (db.parcels ++ [mkParcel db.nextOid p]).find?
      (fun q => q._id == db.nextOid) = some (mkParcel db.nextOid p) := by
    apply find?_append_singleton
    · intro q hq
      simpa [beq_eq_false_iff_ne] using hfresh q hq
    · simp [mkParcel]
  simp [getParcelById, insertParcel, hs, hfind]

/-- C5 witness: the round trip evaluated on a concrete store and payload. -/
theorem parcel_roundtrip_witness :
    getParcelById (insertParcel exDb exPayload).2 "000000000000000000000001" =
      .found (mkParcel (insertParcel exDb exPayload).1 exPayload) :=
  parcel_roundtrip exDb exPayload "000000000000000000000001" (by decide) (by decide)

/-- C6 counterexample: for the empty email string, JavaScript truthiness turns
the `created_by` filter off, so the route returns parcels whose `created_by`
is not the requested email, refuting the claim at `E = ""`. -/
theorem getParcels_empty_email_cex :
    getParcels exDb6 (some "") = [exParcelB] ∧
    exParcelB.created_by ≠ "" ∧
    exDb6.parcels.filter (fun p => p.created_by == "") = [] := by
  decide

/-- C6 (amended): for every nonempty email `E`, `GET /parcels?email=E` returns
exactly the parcels whose `created_by` equals `E`, sorted by descending
`createdAt`; with no email parameter all parcels are returned in that order
(an empty email parameter behaves like an absent one). -/
theorem getParcels_filter_sorted (db : DB) (e : String) (he : e ≠ "") :
    List.Perm (getParcels db (some e)) (db.parcels.filter (fun p => p.created_by == e)) ∧
    (getParcels db (some e)).Sorted createdAtDesc ∧
    List.Perm (getParcels db none) db.parcels ∧
    (getParcels db none).Sorted createdAtDesc := by
  refine ⟨?_, List.sorted_insertionSort _ _, ?_, List.sorted_insertionSort _ _⟩
  · simpa [getParcels, parcelQuery, he] using
      List.perm_insertionSort createdAtDesc
        (db.parcels.filter (parcelQuery (some e)))
  · have hperm := List.perm_insertionSort createdAtDesc
      (db.parcels.filter (parcelQuery none))
    simpa [getParcels, parcelQuery] using hperm

/-- C6 witness: the amended listing property on a concrete store and email. -/
theorem getParcels_filter_sorted_witness :
    List.Perm (getParcels exDb6 (some "bob@example.com"))
      (exDb6.parcels.filter (fun p => p.created_by == "bob@example.com")) ∧
    (getParcels exDb6 (some "bob@example.com")).Sorted createdAtDesc ∧
    List.Perm (getParcels exDb6 none) exDb6.parcels ∧
    (getParcels exDb6 none).Sorted createdAtDesc :=
  getParcels_filter_sorted exDb6 "bob@example.com" (by decide)

/-- C7: `POST /create-payment-intent` forwards the unvalidated amount to the
gateway; a successful gateway call yields a body carrying the gateway's
(non-empty) client secret, and a thrown gateway error yields a 500 whose body
carries the raw error message. -/
theorem createPaymentIntent_spec (amountInCents : Int)
    (gateway : Int → Except String PaymentIntent) :
    (∀ pi, gateway amountInCents = .ok pi → pi.client_secret ≠ "" →
       createPaymentIntent amountInCents gateway = .ok pi.client_secret ∧
       pi.client_secret ≠ "" ∧
       intentStatus (createPaymentIntent amountInCents gateway) = 200) ∧
    (∀ msg, gateway amountInCents = .error msg →
       createPaymentIntent amountInCents gateway = .err msg ∧
       intentStatus (createPaymentIntent amountInCents gateway) = 500) := by
  constructor
  · intro pi hg hne
    refine ⟨?_, hne, ?_⟩ <;> simp [createPaymentIntent, hg, intentStatus]
  · intro msg hg
    constructor <;> simp [createPaymentIntent, hg, intentStatus]

/-- C7 witness: both gateway outcomes on a concrete gateway, including an
unvalidated negative amount reaching the gateway. -/
theorem createPaymentIntent_spec_witness :
    createPaymentIntent 500 exGateway = .ok "pi_1001_secret_xyz" ∧
    createPaymentIntent (-7) exGateway = .err "Invalid positive integer" :=
  ⟨((createPaymentIntent_spec 500 exGateway).1
      { client_secret := "pi_1001_secret_xyz" } rfl (by decide)).1,
   ((createPaymentIntent_spec (-7) exGateway).2 "Invalid positive integer"
      (by norm_num [exGateway])).1⟩

/-- C8: deleting an identifier that matches no parcel responds with the
store's deletion result reporting zero documents removed — an HTTP 200, not an
error — and leaves the parcels collection unchanged. -/
theorem deleteParcel_missing (db : DB) (s : String) (oid : Nat)
    (hs : parseObjectId s = some oid)
    (hmiss : ∀ p ∈ db.parcels, p._id ≠ oid) :
    deleteParcel db s = (.ok 0, db) := by
  have hdel := deleteOneById_of_not_mem oid db.parcels hmiss
  simp [deleteParcel, hs, hdel]

/-- C8 witness: deleting an absent identifier on a concrete store. -/
theorem deleteParcel_missing_witness :
    deleteParcel exDb "00000000000000000000000f" = (.ok 0, exDb) :=
  deleteParcel_missing exDb "00000000000000000000000f" 15 (by decide) (by decide)

/-- C9 counterexample: the two timestamp fields come from two separate
`new Date()` reads; when the clock advances between them (here 0 ms and 1 ms)
the recorded `paid_at_string` is not the ISO rendering of `paid_at`, refuting
the claim that the two fields always denote the same instant. -/
theorem payment_timestamp_cex :
    (postPayments exDb exInput 0 1 false).2.payments =
      [mkPaymentDoc 1 exInput 0 1] ∧
    (mkPaymentDoc 1 exInput 0 1).paid_at_string ≠
      toISOString (mkPaymentDoc 1 exInput 0 1).paid_at := by
  decide

/-- C9 (amended): when the two `new Date()` reads taken while building the
payment record fall in the same millisecond, the inserted record's
`paid_at_string` is exactly the ISO-8601 rendering of its `paid_at`. -/
theorem payment_timestamp_render (db : DB) (inp : PaymentInput) (t oid : Nat)
    (p : ParcelDoc)
    (hparse : parseObjectId inp.parcelId = some oid)
    (hnd : (db.parcels.map ParcelDoc._id).Nodup)
    (hmem : p ∈ db.parcels) (hid : p._id = oid)
    (hunpaid : p.payment_status ≠ some "paid") :
    (postPayments db inp t t false).2.payments =
      db.payments ++ [mkPaymentDoc db.nextOid inp t t] ∧
    (mkPaymentDoc db.nextOid inp t t).paid_at_string =
      toISOString (mkPaymentDoc db.nextOid inp t t).paid_at := by
  have hupd := updateOneSetPaid_of_unpaid oid db.parcels p hnd hmem hid hunpaid
  constructor
  · simp [postPayments, hparse, hupd]
  · rfl

/-- C9 witness: the coinciding-reads case evaluated on a concrete store. -/
theorem payment_timestamp_render_witness :
    (postPayments exDb exInput 7 7 false).2.payments =
      exDb.payments ++ [mkPaymentDoc exDb.nextOid exInput 7 7] ∧
    (mkPaymentDoc exDb.nextOid exInput 7 7).paid_at_string =
      toISOString (mkPaymentDoc exDb.nextOid exInput 7 7).paid_at :=
  payment_timestamp_render exDb exInput 7 0 exParcel (by decide) (by decide)
    (by decide) (by decide) (by decide)

end HurayraXpress
